import Mathlib

/-!
Shallow embedding of the complaint-lifecycle and sensor-status logic of the
IOT-HYGIENE backend (src/backend/models/Sensor.js, Complaint.js, Feedback.js
and src/backend/routes/sensors.js, complaints.js, feedback.js).

Machine numbers of JavaScript are modelled as rationals; the special values
produced by division by zero (Infinity, -Infinity, NaN) are modelled by an
explicit sum type so that the status-derivation hook keeps its exact
behaviour at thresholdValue = 0. Timestamps are naturals (milliseconds).
Route handlers return `Except String _`: `.error` is an HTTP error response,
`.ok` carries the success message and the saved document.
-/

/-- Sensor status enumeration of src/backend/models/Sensor.js (`status` field). -/
inductive SensorStatus
  | normal
  | warning
  | critical
  | offline
deriving DecidableEq, Repr

/-- Outcome of a JavaScript floating-point division: a finite number, one of
the two infinities, or NaN (0/0). -/
inductive JSNum
  | num (q : ℚ)
  | posInf
  | negInf
  | nan
deriving DecidableEq, Repr

/-- JavaScript division `a / b` on numbers: division by zero yields
Infinity, -Infinity or NaN depending on the sign of the numerator. -/
def jsDiv (a b : ℚ) : JSNum :=
  if b = 0 then
    if 0 < a then JSNum.posInf
    else if a < 0 then JSNum.negInf
    else JSNum.nan
  else JSNum.num (a / b)

/-- JavaScript comparison `x >= c` where `x` may be infinite or NaN:
`Infinity >= c` is true, `-Infinity >= c` and `NaN >= c` are false. -/
def jsGe (x : JSNum) (c : ℚ) : Bool :=
  match x with
  | JSNum.num q => decide (c ≤ q)
  | JSNum.posInf => true
  | JSNum.negInf => false
  | JSNum.nan => false

/-- The ratio-to-status rule of the sensor pre-save hook
(Sensor.js lines 151-159): critical at ratio >= 1.5, warning at
ratio >= 1.0, otherwise normal. -/
def deriveStatus (currentValue thresholdValue : ℚ) : SensorStatus :=
  let r := jsDiv currentValue thresholdValue
  if jsGe r (3 / 2) then SensorStatus.critical
  else if jsGe r 1 then SensorStatus.warning
  else SensorStatus.normal

/-- An alert subdocument of Sensor.js (`alerts` array); `aid` models the
subdocument `_id` used by `alerts.id(alertId)`. -/
structure Alert where
  aid : ℕ
  type : String
  message : String
  severity : String
  timestamp : ℕ
  isAcknowledged : Bool
  acknowledgedBy : Option ℕ
  acknowledgedAt : Option ℕ
deriving DecidableEq, Repr

/-- The sensor document (the fields the hooks and routes under scrutiny
read or write). `lastReading` is `(value, timestamp)` when present. -/
structure Sensor where
  name : String
  deviceId : String
  currentValue : ℚ
  thresholdValue : ℚ
  unit : String
  status : SensorStatus
  isActive : Bool
  lastReading : Option (ℚ × ℕ)
  batteryLevel : Option ℕ
  signalStrength : Option ℕ
  alerts : List Alert
  dataPoints : List (ℚ × ℕ)
deriving DecidableEq, Repr

/-- The sensor pre-save hook (Sensor.js lines 149-171): when currentValue or
thresholdValue was modified, recompute `status` from the ratio; when
currentValue was modified, refresh `lastReading`. Mongoose marks a path
modified only when the assigned value differs from the stored one, so the
modification flags are passed in by the callers. -/
def sensorPreSave (s : Sensor) (modCurrent modThreshold : Bool) (now : ℕ) : Sensor :=
  let s1 := if modCurrent || modThreshold then
      { s with status := deriveStatus s.currentValue s.thresholdValue }
    else s
  if modCurrent then { s1 with lastReading := some (s1.currentValue, now) } else s1

/-- `sensor.addDataPoint(value)` (Sensor.js lines 174-187): set currentValue,
push `(value, now)`, keep only the last 1000 data points (`slice(-1000)`),
then save (which runs the pre-save hook). -/
def addDataPoint (s : Sensor) (value : ℚ) (now : ℕ) : Sensor :=
  let modCurrent : Bool := decide (value ≠ s.currentValue)
  let s1 := { s with currentValue := value,
                     dataPoints := s.dataPoints ++ [(value, now)] }
  let s2 := if 1000 < s1.dataPoints.length then
      { s1 with dataPoints := s1.dataPoints.drop (s1.dataPoints.length - 1000) }
    else s1
  sensorPreSave s2 modCurrent false now

/-- `sensor.addAlert(type, message, severity)` (Sensor.js lines 190-198):
push a fresh unacknowledged alert and save. `freshId` models the
subdocument id generated for the new alert. -/
def addAlert (s : Sensor) (type message severity : String) (freshId now : ℕ) : Sensor :=
  sensorPreSave
    { s with alerts := s.alerts ++
        [{ aid := freshId, type := type, message := message, severity := severity,
           timestamp := now, isAcknowledged := false,
           acknowledgedBy := none, acknowledgedAt := none }] }
    false false now

/-- `sensor.acknowledgeAlert(alertId, userId)` (Sensor.js lines 201-209):
if an alert with the given id exists, mark it acknowledged; save either way. -/
def acknowledgeAlert (s : Sensor) (alertId userId now : ℕ) : Sensor :=
  sensorPreSave
    { s with alerts := s.alerts.map fun a =>
        if a.aid = alertId then
          { a with isAcknowledged := true, acknowledgedBy := some userId,
                   acknowledgedAt := some now }
        else a }
    false false now

/-- `POST /api/sensors/:id/data` (sensors.js lines 247-302): rejected when the
sensor is inactive; otherwise `addDataPoint`, then battery level and signal
strength are updated if provided and the document is saved again (a save in
which neither currentValue nor thresholdValue is marked modified). -/
def addDataRoute (s : Sensor) (value : ℚ) (battery signal : Option ℕ) (now : ℕ) :
    Except String (String × Sensor) :=
  if s.isActive = false then Except.error "Sensor is inactive"
  else
    let s1 := addDataPoint s value now
    let s2 := { s1 with
                batteryLevel := (match battery with
                  | some b => some b
                  | none => s1.batteryLevel),
                signalStrength := (match signal with
                  | some g => some g
                  | none => s1.signalStrength) }
    Except.ok ("Data point added successfully", sensorPreSave s2 false false now)

/-- `POST /api/sensors/:id/alert` (sensors.js lines 307-345): after the
not-found check it calls `addAlert` directly; there is no `isActive` guard. -/
def addAlertRoute (s : Sensor) (type message severity : String) (freshId now : ℕ) :
    Except String (String × Sensor) :=
  Except.ok ("Alert added successfully", addAlert s type message severity freshId now)

/-- `POST /api/sensors/:id/alert/:alertId/acknowledge` (sensors.js lines
350-369): calls `acknowledgeAlert` and always reports success. -/
def acknowledgeAlertRoute (s : Sensor) (alertId userId now : ℕ) :
    Except String (String × Sensor) :=
  Except.ok ("Alert acknowledged successfully", acknowledgeAlert s alertId userId now)

/-- Complaint status enumeration of src/backend/models/Complaint.js. -/
inductive ComplaintStatus
  | pending
  | inProgress
  | resolved
  | closed
deriving DecidableEq, Repr

/-- Complaint priority enumeration of Complaint.js. -/
inductive Priority
  | low
  | medium
  | high
deriving DecidableEq, Repr

/-- The `adminResponse` subdocument of Complaint.js. -/
structure AdminResponse where
  message : String
  respondedBy : ℕ
  respondedAt : ℕ
deriving DecidableEq, Repr

/-- The complaint document (the fields the lifecycle operations read or
write). Timestamps are milliseconds since the epoch. -/
structure Complaint where
  title : String
  description : String
  category : String
  status : ComplaintStatus
  priority : Priority
  userId : ℕ
  assignedTo : Option ℕ
  adminResponse : Option AdminResponse
  resolutionNotes : Option String
  actualResolutionTime : Option ℕ
  isUrgent : Bool
  escalationLevel : ℕ
  createdAt : ℕ
deriving DecidableEq, Repr

/-- Milliseconds per day, the divisor of the `ageInDays` virtual. -/
def msPerDay : ℕ := 1000 * 60 * 60 * 24

/-- The `ageInDays` virtual (Complaint.js lines 102-104):
`Math.floor((Date.now() - createdAt) / msPerDay)`. -/
def ageInDays (c : Complaint) (now : ℕ) : ℕ :=
  (now - c.createdAt) / msPerDay

/-- The complaint pre-save hook (Complaint.js lines 115-127): stamp
`actualResolutionTime` when the status was modified to `resolved`, then
auto-escalate: when age >= 7 days, priority is high and status is pending,
set the escalation level to `min 3 (age / 7)`. -/
def complaintPreSave (c : Complaint) (statusModified : Bool) (now : ℕ) : Complaint :=
  let c1 := if statusModified = true ∧ c.status = ComplaintStatus.resolved then
      { c with actualResolutionTime := some now }
    else c
  let age := ageInDays c1 now
  if 7 ≤ age ∧ c1.priority = Priority.high ∧ c1.status = ComplaintStatus.pending then
    { c1 with escalationLevel := min 3 (age / 7) }
  else c1

/-- `complaint.escalate()` (Complaint.js lines 130-136): increment the
escalation level capped at 3, set the urgency flag when the new level is at
least 2, then save (running the pre-save hook; status is not modified). -/
def escalate (c : Complaint) (now : ℕ) : Complaint :=
  let c1 := { c with escalationLevel := min 3 (c.escalationLevel + 1) }
  let c2 := if 2 ≤ c1.escalationLevel then { c1 with isUrgent := true } else c1
  complaintPreSave c2 false now

/-- `complaint.addAdminResponse(message, adminId)` (Complaint.js lines
139-146): set the response subdocument and save (status is not modified). -/
def addAdminResponse (c : Complaint) (message : String) (adminId now : ℕ) : Complaint :=
  complaintPreSave { c with adminResponse := some ⟨message, adminId, now⟩ } false now

/-- `complaint.resolve(notes, adminId)` (Complaint.js lines 149-157): set
status to resolved, record the notes and the resolution time, optionally
record the resolver as assignee, then save. Mongoose marks `status`
modified only when it actually changes. -/
def resolve (c : Complaint) (notes : Option String) (adminId : Option ℕ) (now : ℕ) :
    Complaint :=
  let statusModified : Bool := decide (c.status ≠ ComplaintStatus.resolved)
  let c1 := { c with status := ComplaintStatus.resolved,
                     resolutionNotes := notes,
                     actualResolutionTime := some now }
  let c2 := match adminId with
    | some a => { c1 with assignedTo := some a }
    | none => c1
  complaintPreSave c2 statusModified now

/-- `PUT /api/complaints/:id` (complaints.js lines 163-206): rejected for
resolved or closed complaints; otherwise the provided editable fields are
copied onto the document and it is saved. -/
def updateComplaintRoute (c : Complaint) (title description category : Option String)
    (priority : Option Priority) (now : ℕ) : Except String Complaint :=
  if c.status = ComplaintStatus.resolved ∨ c.status = ComplaintStatus.closed then
    Except.error "Cannot update resolved or closed complaints"
  else
    Except.ok (complaintPreSave
      { c with title := title.getD c.title,
               description := description.getD c.description,
               category := category.getD c.category,
               priority := priority.getD c.priority }
      false now)

/-- `DELETE /api/complaints/:id` (complaints.js lines 211-234): only pending
complaints can be deleted. -/
def deleteComplaintRoute (c : Complaint) : Except String Unit :=
  if c.status ≠ ComplaintStatus.pending then
    Except.error "Can only delete pending complaints"
  else Except.ok ()

/-- `POST /api/complaints/:id/respond` (complaints.js lines 239-275): no
status precondition; records the admin response. -/
def respondComplaintRoute (c : Complaint) (message : String) (adminId now : ℕ) :
    Except String Complaint :=
  Except.ok (addAdminResponse c message adminId now)

/-- `POST /api/complaints/:id/resolve` (complaints.js lines 280-320):
rejected only when the complaint is already resolved; otherwise
`complaint.resolve(notes, req.user._id)`. -/
def resolveComplaintRoute (c : Complaint) (notes : Option String) (adminId now : ℕ) :
    Except String Complaint :=
  if c.status = ComplaintStatus.resolved then
    Except.error "Complaint is already resolved"
  else Except.ok (resolve c notes (some adminId) now)

/-- `POST /api/complaints/:id/escalate` (complaints.js lines 325-352):
rejected for resolved or closed complaints; otherwise `complaint.escalate()`. -/
def escalateComplaintRoute (c : Complaint) (now : ℕ) : Except String Complaint :=
  if c.status = ComplaintStatus.resolved ∨ c.status = ComplaintStatus.closed then
    Except.error "Cannot escalate resolved or closed complaints"
  else Except.ok (escalate c now)

/-- The mutating operations of the complaint lifecycle engine, as offered by
the REST surface. -/
inductive ComplaintOp
  | update (title description category : Option String) (priority : Option Priority)
  | respond (message : String) (adminId : ℕ)
  | resolve (notes : Option String) (adminId : ℕ)
  | escalate
  | delete
deriving DecidableEq, Repr

/-- Dispatch one lifecycle operation; `.ok none` is a successful deletion. -/
def applyComplaintOp (op : ComplaintOp) (c : Complaint) (now : ℕ) :
    Except String (Option Complaint) :=
  match op with
  | ComplaintOp.update t d cat p => (updateComplaintRoute c t d cat p now).map some
  | ComplaintOp.respond m a => (respondComplaintRoute c m a now).map some
  | ComplaintOp.resolve n a => (resolveComplaintRoute c n a now).map some
  | ComplaintOp.escalate => (escalateComplaintRoute c now).map some
  | ComplaintOp.delete => (deleteComplaintRoute c).map fun _ => none

/-- One request against a complaint: a failed request leaves the stored
document unchanged, a successful deletion removes it. -/
def stepComplaint (c : Complaint) (p : ComplaintOp × ℕ) : Option Complaint :=
  match applyComplaintOp p.1 c p.2 with
  | Except.ok (some c1) => some c1
  | Except.ok none => none
  | Except.error _ => some c

/-- Run a sequence of requests against a stored complaint. -/
def runComplaintOps (c : Complaint) (ops : List (ComplaintOp × ℕ)) : Option Complaint :=
  match ops with
  | [] => some c
  | p :: rest =>
    match stepComplaint c p with
    | some c1 => runComplaintOps c1 rest
    | none => none

/-- The status of the complaint produced by a request, when it succeeds and
the complaint still exists. -/
def resultStatus (r : Except String (Option Complaint)) : Option ComplaintStatus :=
  match r with
  | Except.ok (some c) => some c.status
  | _ => none

/-- The escalation level of the complaint produced by a request. -/
def resultLevel (r : Except String (Option Complaint)) : Option ℕ :=
  match r with
  | Except.ok (some c) => some c.escalationLevel
  | _ => none

/-- The resolution timestamp of the complaint produced by a request. -/
def resultTime (r : Except String (Option Complaint)) : Option (Option ℕ) :=
  match r with
  | Except.ok (some c) => some c.actualResolutionTime
  | _ => none

/-- A feedback document of src/backend/models/Feedback.js (the fields the
creation path reads or writes). -/
structure Feedback where
  complaintId : ℕ
  userId : ℕ
  rating : ℕ
  message : String
  category : String
  isAnonymous : Bool
deriving DecidableEq, Repr

/-- The stored collections the feedback creation path consults: complaints
by id, and the feedback collection. -/
structure FeedbackStore where
  complaints : List (ℕ × Complaint)
  feedbacks : List Feedback
deriving DecidableEq, Repr

/-- `Complaint.findById` over the modelled store. -/
def findComplaint (st : FeedbackStore) (cid : ℕ) : Option Complaint :=
  (st.complaints.find? fun p => p.1 = cid).map Prod.snd

/-- `POST /api/feedback` (feedback.js lines 119-178) together with the
feedback pre-save hook (Feedback.js lines 85-110): the referenced complaint
must exist, be resolved and belong to the submitting user, and no feedback
for the same (complaint, user) pair may exist; then the record is appended. -/
def createFeedbackRoute (st : FeedbackStore) (f : Feedback) :
    Except String FeedbackStore :=
  match findComplaint st f.complaintId with
  | none => Except.error "Complaint not found"
  | some c =>
    if c.status ≠ ComplaintStatus.resolved then
      Except.error "Feedback can only be submitted for resolved complaints"
    else if c.userId ≠ f.userId then
      Except.error "You can only provide feedback for your own complaints"
    else if st.feedbacks.any fun g =>
        g.complaintId == f.complaintId && g.userId == f.userId then
      Except.error "You have already submitted feedback for this complaint"
    else Except.ok { st with feedbacks := st.feedbacks ++ [f] }

/-- Two feedback records target the same (complaint, user) pair. -/
def samePair (a b : Feedback) : Prop :=
  a.complaintId = b.complaintId ∧ a.userId = b.userId

instance (a b : Feedback) : Decidable (samePair a b) := by
  unfold samePair; infer_instance

/-- At most one feedback record per (complaint, user) pair. -/
def pairUnique (fs : List Feedback) : Prop :=
  fs.Pairwise fun a b => ¬ samePair a b

/-- A concrete active sensor used by the witnesses: the bin-level sensor of
the seed data, reading 85 against a threshold of 80. -/
def sampleSensor : Sensor :=
  { name := "Bin Level Sensor", deviceId := "BIN-001",
    currentValue := 85, thresholdValue := 80, unit := "%",
    status := SensorStatus.normal, isActive := true,
    lastReading := some (85, 0), batteryLevel := some 90,
    signalStrength := some 80, alerts := [], dataPoints := [] }

/-- A concrete pending complaint used by the witnesses: medium priority,
created at time 0, escalation level 0. -/
def sampleComplaint : Complaint :=
  { title := "Broken door", description := "The door does not close",
    category := "maintenance", status := ComplaintStatus.pending,
    priority := Priority.medium, userId := 5, assignedTo := none,
    adminResponse := none, resolutionNotes := none,
    actualResolutionTime := none, isUrgent := false,
    escalationLevel := 0, createdAt := 0 }

/-- A concrete resolved complaint (resolved at time 42) used by the
witnesses. -/
def resolvedComplaint : Complaint :=
  { sampleComplaint with status := ComplaintStatus.resolved,
                         actualResolutionTime := some 42 }

/-- A concrete feedback record for `resolvedComplaint` by its owner. -/
def sampleFeedback : Feedback :=
  { complaintId := 1, userId := 5, rating := 5, message := "Great service",
    category := "overall-satisfaction", isAnonymous := false }

/-- A store holding `resolvedComplaint` under id 1 and no feedback yet. -/
def sampleStore : FeedbackStore :=
  { complaints := [(1, resolvedComplaint)], feedbacks := [] }

/-- A sensor holding exactly 1000 data points, used by the C8 witness. -/
def thousandPointSensor : Sensor :=
  { sampleSensor with currentValue := 5, lastReading := some (5, 0),
                      dataPoints := List.replicate 1000 ((0 : ℚ), 0) }

/-! ## Helper lemmas about the sensor pre-save hook -/

theorem sensorPreSave_status (s : Sensor) (mc mt : Bool) (now : ℕ) :
    (sensorPreSave s mc mt now).status =
      if mc || mt then deriveStatus s.currentValue s.thresholdValue else s.status := by
  unfold sensorPreSave
  by_cases h1 : mc = true <;> by_cases h2 : mt = true <;> simp [h1, h2]

theorem sensorPreSave_currentValue (s : Sensor) (mc mt : Bool) (now : ℕ) :
    (sensorPreSave s mc mt now).currentValue = s.currentValue := by
  unfold sensorPreSave
  by_cases h1 : mc = true <;> by_cases h2 : mt = true <;> simp [h1, h2]

theorem sensorPreSave_dataPoints (s : Sensor) (mc mt : Bool) (now : ℕ) :
    (sensorPreSave s mc mt now).dataPoints = s.dataPoints := by
  unfold sensorPreSave
  by_cases h1 : mc = true <;> by_cases h2 : mt = true <;> simp [h1, h2]

theorem sensorPreSave_lastReading (s : Sensor) (mc mt : Bool) (now : ℕ) :
    (sensorPreSave s mc mt now).lastReading =
      if mc then some (s.currentValue, now) else s.lastReading := by
  unfold sensorPreSave
  by_cases h1 : mc = true <;> by_cases h2 : mt = true <;> simp [h1, h2]

theorem deriveStatus_of_ne (cv tv : ℚ) (ht : tv ≠ 0) :
    deriveStatus cv tv =
      if 3 / 2 ≤ cv / tv then SensorStatus.critical
      else if 1 ≤ cv / tv then SensorStatus.warning
      else SensorStatus.normal := by
  unfold deriveStatus jsDiv jsGe
  simp [ht]

theorem deriveStatus_ne_offline (cv tv : ℚ) :
    deriveStatus cv tv ≠ SensorStatus.offline := by
  unfold deriveStatus
  by_cases h1 : jsGe (jsDiv cv tv) (3 / 2) = true <;>
    by_cases h2 : jsGe (jsDiv cv tv) 1 = true <;> simp [h1, h2]

/-! ## Claim theorems: sensor status derivation -/

/-- C1: for every sensor save in which currentValue or thresholdValue was
modified (and against a nonzero threshold), the derived status is critical
iff currentValue/thresholdValue >= 1.5, warning iff the ratio lies in
[1.0, 1.5), and normal iff the ratio is below 1.0; the ratio rule never
assigns offline; in particular 85 against a threshold of 80 (ratio 1.0625)
derives warning, not critical. -/
theorem ratio_status_rule (s : Sensor) (mc mt : Bool) (now : ℕ)
    (hmod : (mc || mt) = true) (ht : s.thresholdValue ≠ 0) :
    ((sensorPreSave s mc mt now).status = SensorStatus.critical ↔
      3 / 2 ≤ s.currentValue / s.thresholdValue) ∧
    ((sensorPreSave s mc mt now).status = SensorStatus.warning ↔
      1 ≤ s.currentValue / s.thresholdValue ∧
        s.currentValue / s.thresholdValue < 3 / 2) ∧
    ((sensorPreSave s mc mt now).status = SensorStatus.normal ↔
      s.currentValue / s.thresholdValue < 1) ∧
    (sensorPreSave s mc mt now).status ≠ SensorStatus.offline ∧
    deriveStatus 85 80 = SensorStatus.warning := by
  have hst : (sensorPreSave s mc mt now).status
      = deriveStatus s.currentValue s.thresholdValue := by
    rw [sensorPreSave_status, if_pos hmod]
  rw [hst, deriveStatus_of_ne _ _ ht]
  refine ⟨?_, ?_, ?_, ?_, ?_⟩
  · split_ifs with h1 h2 <;> simp [h1]
  · split_ifs with h1 h2
    · exact ⟨fun h => h.elim,
        fun h => absurd h1 (not_le.mpr h.2)⟩
    · exact ⟨fun _ => ⟨h2, lt_of_not_le h1⟩, fun _ => rfl⟩
    · exact ⟨fun h => h.elim, fun h => absurd h.1 h2⟩
  · split_ifs with h1 h2
    · exact ⟨fun h => h.elim,
        fun h => absurd h1 (not_le.mpr (lt_of_lt_of_le h (by norm_num)))⟩
    · exact ⟨fun h => h.elim,
        fun h => absurd h2 (not_le.mpr h)⟩
    · exact ⟨fun _ => lt_of_not_le h2, fun _ => rfl⟩
  · split_ifs <;> simp
  · rw [deriveStatus_of_ne 85 80 (by norm_num)]
    norm_num

/-- Witness for C1: the sample sensor reading 85 against threshold 80, saved
with currentValue modified, derives the warning status. -/
theorem ratio_status_rule_witness :
    (sensorPreSave sampleSensor true false 0).status = SensorStatus.warning :=
  (ratio_status_rule sampleSensor true false 0 rfl
      (by norm_num [sampleSensor])).2.1.mpr
    (by norm_num [sampleSensor])

/-- C10: the status derivation is total at a zero threshold: a save that
modified the values derives critical when currentValue is positive (the
JavaScript ratio is Infinity) and normal when currentValue is zero (the 0/0
ratio is NaN, which satisfies none of the comparisons). -/
theorem zero_threshold_status (s : Sensor) (mc mt : Bool) (now : ℕ)
    (hmod : (mc || mt) = true) (ht : s.thresholdValue = 0) :
    (0 < s.currentValue →
      (sensorPreSave s mc mt now).status = SensorStatus.critical) ∧
    (s.currentValue = 0 →
      (sensorPreSave s mc mt now).status = SensorStatus.normal) := by
  have hst : (sensorPreSave s mc mt now).status
      = deriveStatus s.currentValue s.thresholdValue := by
    rw [sensorPreSave_status, if_pos hmod]
  constructor
  · intro h
    rw [hst]
    unfold deriveStatus jsDiv jsGe
    simp [ht, h]
  · intro h
    rw [hst]
    unfold deriveStatus jsDiv jsGe
    simp [ht, h]

/-- Witness for C10: at threshold 0, the sample sensor reading 1 derives
critical and reading 0 derives normal. -/
theorem zero_threshold_status_witness :
    (sensorPreSave { sampleSensor with currentValue := 1, thresholdValue := 0 }
        true false 0).status = SensorStatus.critical ∧
    (sensorPreSave { sampleSensor with currentValue := 0, thresholdValue := 0 }
        true false 0).status = SensorStatus.normal :=
  ⟨(zero_threshold_status _ true false 0 rfl rfl).1 (by norm_num),
   (zero_threshold_status _ true false 0 rfl rfl).2 rfl⟩

/-- C8: adding a data point to a sensor holding exactly 1000 data points
appends (value, timestamp), evicts exactly the single oldest point keeping
insertion order, leaves the history at length 1000, and sets both
currentValue and the last-reading snapshot to the new value (the snapshot
hypothesis is the invariant maintained by every previous save). -/
theorem addDataPoint_sliding_window (s : Sensor) (value : ℚ) (now : ℕ)
    (hlen : s.dataPoints.length = 1000)
    (hlast : s.lastReading.map Prod.fst = some s.currentValue) :
    (addDataPoint s value now).dataPoints =
      s.dataPoints.drop 1 ++ [(value, now)] ∧
    (addDataPoint s value now).dataPoints.length = 1000 ∧
    (addDataPoint s value now).currentValue = value ∧
    (addDataPoint s value now).lastReading.map Prod.fst = some value := by
  have hgt : 1000 < (s.dataPoints ++ [(value, now)]).length := by
    simp [hlen]
  have hdp : (addDataPoint s value now).dataPoints =
      s.dataPoints.drop 1 ++ [(value, now)] := by
    unfold addDataPoint
    rw [sensorPreSave_dataPoints]
    simp only [if_pos hgt]
    rw [List.drop_append_of_le_length (by simp [hlen])]
    simp [hlen]
  have hcv : (addDataPoint s value now).currentValue = value := by
    unfold addDataPoint
    rw [sensorPreSave_currentValue]
    split_ifs <;> rfl
  refine ⟨hdp, ?_, hcv, ?_⟩
  · rw [hdp]
    simp [hlen]
  · unfold addDataPoint
    rw [sensorPreSave_lastReading]
    by_cases hv : value = s.currentValue
    · have : (decide (value ≠ s.currentValue)) = false := by simp [hv]
      rw [this]
      simp only [Bool.false_eq_true, if_false]
      split_ifs <;> simpa [hv] using hlast
    · have : (decide (value ≠ s.currentValue)) = true := by simp [hv]
      rw [this]
      simp only [if_true]
      split_ifs <;> rfl


/-- Witness for C8: a sensor holding exactly 1000 data points receives a new
reading; the oldest point is evicted and the value recorded. -/
theorem addDataPoint_sliding_window_witness :
    (addDataPoint thousandPointSensor 7 3).dataPoints =
      thousandPointSensor.dataPoints.drop 1 ++ [(7, 3)] ∧
    (addDataPoint thousandPointSensor 7 3).dataPoints.length = 1000 ∧
    (addDataPoint thousandPointSensor 7 3).currentValue = 7 ∧
    (addDataPoint thousandPointSensor 7 3).lastReading.map Prod.fst = some 7 :=
  addDataPoint_sliding_window thousandPointSensor 7 3
    (by rw [show thousandPointSensor.dataPoints = List.replicate 1000 ((0 : ℚ), 0)
          from rfl, List.length_replicate]) rfl

/-- C9: acknowledging an alert id that matches no alert of the sensor
succeeds (the endpoint reports the alert acknowledged) and leaves the
sensor, in particular every alert, unchanged. -/
theorem acknowledge_unknown_alert (s : Sensor) (alertId userId now : ℕ)
    (h : ∀ a ∈ s.alerts, a.aid ≠ alertId) :
    acknowledgeAlertRoute s alertId userId now =
      Except.ok ("Alert acknowledged successfully", s) := by
  unfold acknowledgeAlertRoute acknowledgeAlert
  have hmap : ∀ l : List Alert, (∀ a ∈ l, a.aid ≠ alertId) →
      (l.map fun a =>
        if a.aid = alertId then
          { a with isAcknowledged := true, acknowledgedBy := some userId,
                   acknowledgedAt := some now }
        else a) = l := by
    intro l hl
    induction l with
    | nil => rfl
    | cons a t ih =>
      simp only [List.map_cons]
      rw [if_neg (hl a (List.mem_cons_self a t)),
        ih fun b hb => hl b (List.mem_cons_of_mem a hb)]
  rw [hmap s.alerts h]
  rfl

/-- Witness for C9: the sample sensor has no alert with id 2; acknowledging
id 2 succeeds and returns the sensor unchanged. -/
theorem acknowledge_unknown_alert_witness :
    acknowledgeAlertRoute sampleSensor 2 1 9 =
      Except.ok ("Alert acknowledged successfully", sampleSensor) :=
  acknowledge_unknown_alert sampleSensor 2 1 9 (by simp [sampleSensor])

/-- Counterexample to C6: on an inactive sensor the add-alert endpoint does
not reject; it succeeds and appends the alert. -/
theorem inactive_alert_counterexample :
    ({ sampleSensor with isActive := false } : Sensor).isActive = false ∧
    addAlertRoute { sampleSensor with isActive := false }
        "device-offline" "sensor down" "high" 7 3 =
      Except.ok ("Alert added successfully",
        { sampleSensor with
          isActive := false,
          alerts := [{ aid := 7, type := "device-offline",
                       message := "sensor down", severity := "high",
                       timestamp := 3, isAcknowledged := false,
                       acknowledgedBy := none, acknowledgedAt := none }] }) :=
  ⟨rfl, rfl⟩

/-- C6 amended: only the add-data-point endpoint rejects an inactive sensor
(leaving it unchanged); the add-alert endpoint has no isActive guard, so it
succeeds on an inactive sensor and appends the alert. -/
theorem inactive_sensor_ops (s : Sensor) (value : ℚ) (battery signal : Option ℕ)
    (type message severity : String) (freshId now : ℕ)
    (h : s.isActive = false) :
    addDataRoute s value battery signal now = Except.error "Sensor is inactive" ∧
    addAlertRoute s type message severity freshId now =
      Except.ok ("Alert added successfully",
        { s with alerts := s.alerts ++
            [{ aid := freshId, type := type, message := message,
               severity := severity, timestamp := now, isAcknowledged := false,
               acknowledgedBy := none, acknowledgedAt := none }] }) := by
  constructor
  · unfold addDataRoute
    rw [if_pos h]
  · rfl

/-- Witness for the amended C6 at a concrete inactive sensor. -/
theorem inactive_sensor_ops_witness :
    addDataRoute { sampleSensor with isActive := false } 42 none none 3 =
      Except.error "Sensor is inactive" ∧
    addAlertRoute { sampleSensor with isActive := false }
        "battery-low" "low battery" "medium" 8 4 =
      Except.ok ("Alert added successfully",
        { ({ sampleSensor with isActive := false } : Sensor) with
          alerts := ({ sampleSensor with isActive := false } : Sensor).alerts ++
            [{ aid := 8, type := "battery-low", message := "low battery",
               severity := "medium", timestamp := 4, isAcknowledged := false,
               acknowledgedBy := none, acknowledgedAt := none }] }) :=
  inactive_sensor_ops { sampleSensor with isActive := false } 42 none none
    "battery-low" "low battery" "medium" 8 4 rfl

/-! ## Helper lemmas about the complaint pre-save hook -/

theorem complaintPreSave_status (c : Complaint) (sm : Bool) (now : ℕ) :
    (complaintPreSave c sm now).status = c.status := by
  simp only [complaintPreSave]
  split_ifs <;> rfl

theorem complaintPreSave_priority (c : Complaint) (sm : Bool) (now : ℕ) :
    (complaintPreSave c sm now).priority = c.priority := by
  simp only [complaintPreSave]
  split_ifs <;> rfl

theorem complaintPreSave_isUrgent (c : Complaint) (sm : Bool) (now : ℕ) :
    (complaintPreSave c sm now).isUrgent = c.isUrgent := by
  simp only [complaintPreSave]
  split_ifs <;> rfl

theorem complaintPreSave_createdAt (c : Complaint) (sm : Bool) (now : ℕ) :
    (complaintPreSave c sm now).createdAt = c.createdAt := by
  simp only [complaintPreSave]
  split_ifs <;> rfl

theorem complaintPreSave_level (c : Complaint) (sm : Bool) (now : ℕ) :
    (complaintPreSave c sm now).escalationLevel =
      if 7 ≤ ageInDays c now ∧ c.priority = Priority.high ∧
          c.status = ComplaintStatus.pending then
        min 3 (ageInDays c now / 7)
      else c.escalationLevel := by
  simp only [complaintPreSave]
  split_ifs <;> simp_all [ageInDays]

theorem complaintPreSave_time (c : Complaint) (sm : Bool) (now : ℕ) :
    (complaintPreSave c sm now).actualResolutionTime =
      if sm = true ∧ c.status = ComplaintStatus.resolved then some now
      else c.actualResolutionTime := by
  simp only [complaintPreSave]
  split_ifs <;> simp_all [ageInDays]

theorem preSave_level_cases (cU : Complaint) (sm : Bool) (now : ℕ) :
    (complaintPreSave cU sm now).escalationLevel = cU.escalationLevel ∨
      ((complaintPreSave cU sm now).status = ComplaintStatus.pending ∧
       (complaintPreSave cU sm now).priority = Priority.high ∧
       7 ≤ ageInDays (complaintPreSave cU sm now) now ∧
       (complaintPreSave cU sm now).escalationLevel =
         min 3 (ageInDays (complaintPreSave cU sm now) now / 7)) := by
  have hca : ageInDays (complaintPreSave cU sm now) now = ageInDays cU now := by
    unfold ageInDays
    rw [complaintPreSave_createdAt]
  by_cases h : 7 ≤ ageInDays cU now ∧ cU.priority = Priority.high ∧
      cU.status = ComplaintStatus.pending
  · right
    rw [complaintPreSave_status, complaintPreSave_priority, hca,
      complaintPreSave_level, if_pos h]
    exact ⟨h.2.2, h.2.1, h.1, rfl⟩
  · left
    rw [complaintPreSave_level, if_neg h]

/-! ## Claim theorems: complaint lifecycle -/

/-- Counterexample to C2: a pending medium-priority complaint aged 14 days is
escalated three times (level 3); updating its priority to high triggers the
auto-escalation recomputation, which lowers the level to
min(3, floor(14/7)) = 2 while the status stays pending. -/
theorem escalation_monotone_counterexample :
    ((escalateComplaintRoute sampleComplaint (14 * msPerDay)).bind fun c1 =>
      (escalateComplaintRoute c1 (14 * msPerDay)).bind fun c2 =>
        (escalateComplaintRoute c2 (14 * msPerDay)).bind fun c3 =>
          (updateComplaintRoute c3 none none none (some Priority.high)
              (14 * msPerDay)).map fun c4 =>
            (c3.status, c3.escalationLevel, c4.status, c4.escalationLevel)) =
      Except.ok (ComplaintStatus.pending, 3, ComplaintStatus.pending, 2) := by
  rfl

/-- C2 (amended): across every successful lifecycle operation, the
escalation level never decreases except through the auto-escalation branch
of the save hook: either the new level is at least the old one, or the
saved complaint is pending with high priority and age at least 7 days and
its level is exactly min(3, floor(age/7)) (which a previous manual
escalation may exceed). The schema bounds the stored level by 3. -/
theorem escalation_monotone_amended (op : ComplaintOp) (c c' : Complaint)
    (now : ℕ) (hlvl : c.escalationLevel ≤ 3)
    (hok : applyComplaintOp op c now = Except.ok (some c')) :
    c.escalationLevel ≤ c'.escalationLevel ∨
      (c'.status = ComplaintStatus.pending ∧ c'.priority = Priority.high ∧
       7 ≤ ageInDays c' now ∧
       c'.escalationLevel = min 3 (ageInDays c' now / 7)) := by
  cases op with
  | update t d cat p =>
    unfold applyComplaintOp updateComplaintRoute at hok
    split_ifs at hok with h
    · simp [Except.map] at hok
    · simp only [Except.map, Except.ok.injEq, Option.some.injEq] at hok
      subst hok
      rcases preSave_level_cases
          { c with title := t.getD c.title, description := d.getD c.description,
                   category := cat.getD c.category,
                   priority := p.getD c.priority } false now with hl | hr
      · left
        rw [hl]
      · right
        exact hr
  | respond m a =>
    unfold applyComplaintOp respondComplaintRoute addAdminResponse at hok
    simp only [Except.map, Except.ok.injEq, Option.some.injEq] at hok
    subst hok
    rcases preSave_level_cases
        { c with adminResponse := some ⟨m, a, now⟩ } false now with hl | hr
    · left
      rw [hl]
    · right
      exact hr
  | resolve n a =>
    unfold applyComplaintOp resolveComplaintRoute resolve at hok
    split_ifs at hok with h
    · simp [Except.map] at hok
    · simp only [Except.map, Except.ok.injEq, Option.some.injEq] at hok
      subst hok
      rcases preSave_level_cases
          { c with status := ComplaintStatus.resolved, resolutionNotes := n,
                   actualResolutionTime := some now, assignedTo := some a }
          (decide (c.status ≠ ComplaintStatus.resolved)) now with hl | hr
      · left
        rw [hl]
      · right
        exact hr
  | escalate =>
    unfold applyComplaintOp escalateComplaintRoute escalate at hok
    split_ifs at hok with h
    · simp [Except.map] at hok
    · simp only [Except.map, Except.ok.injEq, Option.some.injEq] at hok
      subst hok
      rcases preSave_level_cases
          (if 2 ≤ ({ c with escalationLevel := min 3 (c.escalationLevel + 1) }
                : Complaint).escalationLevel then
            { ({ c with escalationLevel := min 3 (c.escalationLevel + 1) }
                : Complaint) with isUrgent := true }
          else { c with escalationLevel := min 3 (c.escalationLevel + 1) })
          false now with hl | hr
      · left
        rw [hl]
        have hlv : (if 2 ≤ ({ c with
              escalationLevel := min 3 (c.escalationLevel + 1) }
                : Complaint).escalationLevel then
              { ({ c with escalationLevel := min 3 (c.escalationLevel + 1) }
                  : Complaint) with isUrgent := true }
            else { c with escalationLevel := min 3 (c.escalationLevel + 1) }
            : Complaint).escalationLevel = min 3 (c.escalationLevel + 1) := by
          split_ifs <;> rfl
        rw [hlv]
        exact le_min hlvl (Nat.le_succ _)
      · right
        exact hr
  | delete =>
    unfold applyComplaintOp deleteComplaintRoute at hok
    split_ifs at hok <;> simp [Except.map] at hok

/-- Witness for the amended C2: recording an admin response on the sample
pending complaint does not lower its escalation level. -/
theorem escalation_monotone_amended_witness :
    sampleComplaint.escalationLevel ≤
        (addAdminResponse sampleComplaint "noted" 1 0).escalationLevel ∨
      ((addAdminResponse sampleComplaint "noted" 1 0).status =
          ComplaintStatus.pending ∧
       (addAdminResponse sampleComplaint "noted" 1 0).priority =
          Priority.high ∧
       7 ≤ ageInDays (addAdminResponse sampleComplaint "noted" 1 0) 0 ∧
       (addAdminResponse sampleComplaint "noted" 1 0).escalationLevel =
         min 3 (ageInDays (addAdminResponse sampleComplaint "noted" 1 0) 0 / 7)) :=
  escalation_monotone_amended (ComplaintOp.respond "noted" 1) sampleComplaint
    (addAdminResponse sampleComplaint "noted" 1 0) 0 (by decide) rfl

/-- C3 (amended): every save of a pending high-priority complaint of age at
least 7 days sets the escalation level to min(3, floor(age/7)); the save
hook leaves the urgency flag unchanged (it is set only by the escalate
method when the incremented level reaches 2). -/
theorem auto_escalation_on_save (c : Complaint) (sm : Bool) (now : ℕ)
    (hst : c.status = ComplaintStatus.pending)
    (hpr : c.priority = Priority.high)
    (hage : 7 ≤ ageInDays c now) :
    (complaintPreSave c sm now).escalationLevel =
      min 3 (ageInDays c now / 7) ∧
    (complaintPreSave c sm now).isUrgent = c.isUrgent := by
  refine ⟨?_, complaintPreSave_isUrgent c sm now⟩
  rw [complaintPreSave_level, if_pos ⟨hage, hpr, hst⟩]

/-- Counterexample to C3 as stated: saving a pending high-priority complaint
aged 14 days sets the escalation level to 2 but leaves the urgency flag
false; the save hook never touches the urgency flag. -/
theorem auto_escalation_counterexample :
    ({ sampleComplaint with priority := Priority.high } : Complaint).status =
        ComplaintStatus.pending ∧
    ageInDays { sampleComplaint with priority := Priority.high }
        (14 * msPerDay) = 14 ∧
    (complaintPreSave { sampleComplaint with priority := Priority.high }
        false (14 * msPerDay)).escalationLevel = 2 ∧
    (complaintPreSave { sampleComplaint with priority := Priority.high }
        false (14 * msPerDay)).isUrgent = false :=
  ⟨rfl, rfl, rfl, rfl⟩

/-- Witness for the amended C3 at the concrete 14-day-old complaint. -/
theorem auto_escalation_witness :
    (complaintPreSave { sampleComplaint with priority := Priority.high }
        false (14 * msPerDay)).escalationLevel =
      min 3 (ageInDays { sampleComplaint with priority := Priority.high }
        (14 * msPerDay) / 7) ∧
    (complaintPreSave { sampleComplaint with priority := Priority.high }
        false (14 * msPerDay)).isUrgent =
      ({ sampleComplaint with priority := Priority.high } : Complaint).isUrgent :=
  auto_escalation_on_save { sampleComplaint with priority := Priority.high }
    false (14 * msPerDay) rfl rfl (by decide)

/-- Counterexample to C4: resolving a closed complaint succeeds and changes
its status to resolved, so closed is not a terminal state. -/
theorem closed_terminal_counterexample :
    ({ sampleComplaint with
        status := ComplaintStatus.closed,
        actualResolutionTime := some 42 } : Complaint).status =
        ComplaintStatus.closed ∧
    resultStatus (applyComplaintOp (ComplaintOp.resolve none 1)
        { sampleComplaint with
          status := ComplaintStatus.closed,
          actualResolutionTime := some 42 } 99) =
      some ComplaintStatus.resolved :=
  ⟨rfl, rfl⟩

/-- C4 (amended): on a closed complaint, update, escalate and delete are
rejected with state-precondition errors and respond leaves the status
closed, but resolve succeeds and moves the status to resolved: only the
resolve operation can change a closed complaint. -/
theorem closed_complaint_ops (c : Complaint) (t d cat : Option String)
    (p : Option Priority) (m : String) (aid now : ℕ) (notes : Option String)
    (h : c.status = ComplaintStatus.closed) :
    applyComplaintOp (ComplaintOp.update t d cat p) c now =
      Except.error "Cannot update resolved or closed complaints" ∧
    applyComplaintOp ComplaintOp.escalate c now =
      Except.error "Cannot escalate resolved or closed complaints" ∧
    applyComplaintOp ComplaintOp.delete c now =
      Except.error "Can only delete pending complaints" ∧
    resultStatus (applyComplaintOp (ComplaintOp.respond m aid) c now) =
      some ComplaintStatus.closed ∧
    resultStatus (applyComplaintOp (ComplaintOp.resolve notes aid) c now) =
      some ComplaintStatus.resolved := by
  refine ⟨?_, ?_, ?_, ?_, ?_⟩
  · simp only [applyComplaintOp]
    unfold updateComplaintRoute
    rw [if_pos (Or.inr h)]
    rfl
  · simp only [applyComplaintOp]
    unfold escalateComplaintRoute
    rw [if_pos (Or.inr h)]
    rfl
  · simp only [applyComplaintOp]
    unfold deleteComplaintRoute
    rw [if_pos (by rw [h]; exact fun hc => ComplaintStatus.noConfusion hc)]
    rfl
  · simp only [applyComplaintOp]
    unfold respondComplaintRoute addAdminResponse resultStatus
    simp only [Except.map]
    rw [complaintPreSave_status]
    exact congrArg some h
  · simp only [applyComplaintOp]
    unfold resolveComplaintRoute resolve
    rw [if_neg (by rw [h]; exact fun hc => ComplaintStatus.noConfusion hc)]
    unfold resultStatus
    simp only [Except.map]
    rw [complaintPreSave_status]

/-- Witness for the amended C4 at a concrete closed complaint. -/
theorem closed_complaint_ops_witness :
    applyComplaintOp (ComplaintOp.update none none none none)
        { sampleComplaint with status := ComplaintStatus.closed } 7 =
      Except.error "Cannot update resolved or closed complaints" ∧
    applyComplaintOp ComplaintOp.escalate
        { sampleComplaint with status := ComplaintStatus.closed } 7 =
      Except.error "Cannot escalate resolved or closed complaints" ∧
    applyComplaintOp ComplaintOp.delete
        { sampleComplaint with status := ComplaintStatus.closed } 7 =
      Except.error "Can only delete pending complaints" ∧
    resultStatus (applyComplaintOp (ComplaintOp.respond "noted" 1)
        { sampleComplaint with status := ComplaintStatus.closed } 7) =
      some ComplaintStatus.closed ∧
    resultStatus (applyComplaintOp (ComplaintOp.resolve none 1)
        { sampleComplaint with status := ComplaintStatus.closed } 7) =
      some ComplaintStatus.resolved :=
  closed_complaint_ops { sampleComplaint with status := ComplaintStatus.closed }
    none none none none "noted" 1 7 none rfl

theorem stepComplaint_resolved (c : Complaint) (p : ComplaintOp × ℕ)
    (h : c.status = ComplaintStatus.resolved) :
    ∃ c1, stepComplaint c p = some c1 ∧
      c1.status = ComplaintStatus.resolved ∧
      c1.actualResolutionTime = c.actualResolutionTime := by
  obtain ⟨op, now⟩ := p
  cases op with
  | update t d cat p' =>
    refine ⟨c, ?_, h, rfl⟩
    simp only [stepComplaint, applyComplaintOp, updateComplaintRoute]
    rw [if_pos (Or.inl h)]
    rfl
  | respond m a =>
    refine ⟨addAdminResponse c m a now, rfl, ?_, ?_⟩
    · unfold addAdminResponse
      rw [complaintPreSave_status]
      exact h
    · unfold addAdminResponse
      rw [complaintPreSave_time, if_neg (by simp)]
  | resolve n a =>
    refine ⟨c, ?_, h, rfl⟩
    simp only [stepComplaint, applyComplaintOp, resolveComplaintRoute]
    rw [if_pos h]
    rfl
  | escalate =>
    refine ⟨c, ?_, h, rfl⟩
    simp only [stepComplaint, applyComplaintOp, escalateComplaintRoute]
    rw [if_pos (Or.inl h)]
    rfl
  | delete =>
    refine ⟨c, ?_, h, rfl⟩
    simp only [stepComplaint, applyComplaintOp, deleteComplaintRoute]
    rw [if_pos (by rw [h]; exact fun hc => ComplaintStatus.noConfusion hc)]
    rfl

theorem runComplaintOps_resolved (c : Complaint) (ops : List (ComplaintOp × ℕ))
    (h : c.status = ComplaintStatus.resolved) :
    ∃ c1, runComplaintOps c ops = some c1 ∧
      c1.status = ComplaintStatus.resolved ∧
      c1.actualResolutionTime = c.actualResolutionTime := by
  induction ops generalizing c with
  | nil => exact ⟨c, rfl, h, rfl⟩
  | cons p rest ih =>
    obtain ⟨c1, hstep, hst, htime⟩ := stepComplaint_resolved c p h
    obtain ⟨c2, hrun, hst2, htime2⟩ := ih c1 hst
    refine ⟨c2, ?_, hst2, htime2.trans htime⟩
    unfold runComplaintOps
    rw [hstep]
    exact hrun

/-- C5: resolving an already-resolved complaint fails with a
state-precondition error (leaving it unchanged); resolving a non-resolved
complaint succeeds, sets the status to resolved and stamps the resolution
time to the current time; and once a complaint is resolved, no sequence of
lifecycle requests ever changes its status or its resolution timestamp. -/
theorem resolve_once (c : Complaint) (notes : Option String) (aid now : ℕ)
    (ops : List (ComplaintOp × ℕ)) :
    (c.status = ComplaintStatus.resolved →
      applyComplaintOp (ComplaintOp.resolve notes aid) c now =
        Except.error "Complaint is already resolved") ∧
    (c.status ≠ ComplaintStatus.resolved →
      resultStatus (applyComplaintOp (ComplaintOp.resolve notes aid) c now) =
        some ComplaintStatus.resolved ∧
      resultTime (applyComplaintOp (ComplaintOp.resolve notes aid) c now) =
        some (some now)) ∧
    (c.status = ComplaintStatus.resolved →
      (runComplaintOps c ops).map Complaint.status =
        some ComplaintStatus.resolved ∧
      (runComplaintOps c ops).map Complaint.actualResolutionTime =
        some c.actualResolutionTime) := by
  refine ⟨?_, ?_, ?_⟩
  · intro h
    simp only [applyComplaintOp, resolveComplaintRoute]
    rw [if_pos h]
    rfl
  · intro h
    simp only [applyComplaintOp, resolveComplaintRoute, resolve]
    rw [if_neg h]
    constructor
    · unfold resultStatus
      simp only [Except.map]
      rw [complaintPreSave_status]
    · unfold resultTime
      simp only [Except.map]
      rw [complaintPreSave_time, if_pos ⟨by simp [h], rfl⟩]
  · intro h
    obtain ⟨c1, hrun, hst, htime⟩ := runComplaintOps_resolved c ops h
    rw [hrun]
    exact ⟨congrArg some hst, congrArg some htime⟩

/-- Witness for C5: the resolved sample complaint rejects a second resolve
and survives a later respond request with status and timestamp intact; the
pending sample complaint resolves with a fresh timestamp. -/
theorem resolve_once_witness :
    applyComplaintOp (ComplaintOp.resolve none 1) resolvedComplaint 99 =
      Except.error "Complaint is already resolved" ∧
    resultStatus (applyComplaintOp (ComplaintOp.resolve none 1)
        sampleComplaint 99) = some ComplaintStatus.resolved ∧
    resultTime (applyComplaintOp (ComplaintOp.resolve none 1)
        sampleComplaint 99) = some (some 99) ∧
    (runComplaintOps resolvedComplaint
        [(ComplaintOp.respond "done" 2, 100)]).map Complaint.status =
      some ComplaintStatus.resolved ∧
    (runComplaintOps resolvedComplaint
        [(ComplaintOp.respond "done" 2, 100)]).map
        Complaint.actualResolutionTime = some (some 42) :=
  ⟨(resolve_once resolvedComplaint none 1 99 []).1 rfl,
   ((resolve_once sampleComplaint none 1 99 []).2.1 (by decide)).1,
   ((resolve_once sampleComplaint none 1 99 []).2.1 (by decide)).2,
   ((resolve_once resolvedComplaint none 1 99
       [(ComplaintOp.respond "done" 2, 100)]).2.2 rfl).1,
   ((resolve_once resolvedComplaint none 1 99
       [(ComplaintOp.respond "done" 2, 100)]).2.2 rfl).2⟩

/-! ## Claim theorems: feedback creation -/

theorem createFeedbackRoute_found (st : FeedbackStore) (f : Feedback)
    (c0 : Complaint) (hfind : findComplaint st f.complaintId = some c0) :
    createFeedbackRoute st f =
      (if c0.status ≠ ComplaintStatus.resolved then
        Except.error "Feedback can only be submitted for resolved complaints"
      else if c0.userId ≠ f.userId then
        Except.error "You can only provide feedback for your own complaints"
      else if st.feedbacks.any fun g =>
          g.complaintId == f.complaintId && g.userId == f.userId then
        Except.error "You have already submitted feedback for this complaint"
      else Except.ok { st with feedbacks := st.feedbacks ++ [f] }) := by
  unfold createFeedbackRoute
  rw [hfind]

/-- C7: feedback creation fails when the referenced complaint is not
resolved, fails when a feedback record for the same (complaint, user) pair
already exists, preserves the at-most-one-per-pair invariant, and succeeds
only by appending a record whose complaint was resolved at submission
time. -/
theorem feedback_creation (st st' : FeedbackStore) (f : Feedback)
    (c : Complaint) :
    (findComplaint st f.complaintId = some c →
      c.status ≠ ComplaintStatus.resolved →
      createFeedbackRoute st f =
        Except.error "Feedback can only be submitted for resolved complaints") ∧
    (findComplaint st f.complaintId = some c →
      c.status = ComplaintStatus.resolved → c.userId = f.userId →
      (st.feedbacks.any fun g =>
        g.complaintId == f.complaintId && g.userId == f.userId) = true →
      createFeedbackRoute st f =
        Except.error "You have already submitted feedback for this complaint") ∧
    (pairUnique st.feedbacks → createFeedbackRoute st f = Except.ok st' →
      pairUnique st'.feedbacks) ∧
    (createFeedbackRoute st f = Except.ok st' →
      (findComplaint st f.complaintId).map Complaint.status =
        some ComplaintStatus.resolved ∧
      st'.feedbacks = st.feedbacks ++ [f]) := by
  have hsplit : createFeedbackRoute st f = Except.ok st' →
      ∃ c0, findComplaint st f.complaintId = some c0 ∧
        c0.status = ComplaintStatus.resolved ∧
        (st.feedbacks.any fun g =>
          g.complaintId == f.complaintId && g.userId == f.userId) = false ∧
        st' = { st with feedbacks := st.feedbacks ++ [f] } := by
    intro hok
    cases hfind : findComplaint st f.complaintId with
    | none =>
      unfold createFeedbackRoute at hok
      rw [hfind] at hok
      exact absurd hok (by simp)
    | some c0 =>
      rw [createFeedbackRoute_found st f c0 hfind] at hok
      by_cases h1 : c0.status = ComplaintStatus.resolved
      · rw [if_neg (not_not_intro h1)] at hok
        by_cases h2 : c0.userId = f.userId
        · rw [if_neg (not_not_intro h2)] at hok
          by_cases h3 : (st.feedbacks.any fun g =>
              g.complaintId == f.complaintId && g.userId == f.userId) = true
          · rw [if_pos h3] at hok
            exact absurd hok (by simp)
          · rw [if_neg h3] at hok
            exact ⟨c0, rfl, h1, Bool.eq_false_iff.mpr h3,
              by simpa using hok.symm⟩
        · rw [if_pos h2] at hok
          exact absurd hok (by simp)
      · rw [if_pos h1] at hok
        exact absurd hok (by simp)
  refine ⟨?_, ?_, ?_, ?_⟩
  · intro hfind hns
    rw [createFeedbackRoute_found st f c hfind, if_pos hns]
  · intro hfind hs hu hdup
    rw [createFeedbackRoute_found st f c hfind, if_neg (not_not_intro hs),
      if_neg (not_not_intro hu), if_pos hdup]
  · intro huniq hok
    obtain ⟨c0, _, _, hnodup, hst⟩ := hsplit hok
    subst hst
    show pairUnique (st.feedbacks ++ [f])
    unfold pairUnique at huniq ⊢
    rw [List.pairwise_append]
    refine ⟨huniq, List.pairwise_singleton _ _, ?_⟩
    intro a ha b hb
    rw [List.mem_singleton] at hb
    intro hpair
    rw [hb] at hpair
    unfold samePair at hpair
    have hbe : (a.complaintId == f.complaintId && a.userId == f.userId) = true := by
      simp [hpair.1, hpair.2]
    rw [List.any_eq_false] at hnodup
    exact absurd hbe (by simpa using hnodup a ha)
  · intro hok
    obtain ⟨c0, hfind, hres, _, hst⟩ := hsplit hok
    subst hst
    exact ⟨by rw [hfind]; exact congrArg some hres, rfl⟩

/-- Witness for C7: the owner of the resolved sample complaint submits the
first feedback; it is appended, the complaint was resolved, and the pair
invariant is preserved. -/
theorem feedback_creation_witness :
    pairUnique ({ sampleStore with
        feedbacks := sampleStore.feedbacks ++ [sampleFeedback] }
        : FeedbackStore).feedbacks ∧
    (findComplaint sampleStore sampleFeedback.complaintId).map
        Complaint.status = some ComplaintStatus.resolved ∧
    ({ sampleStore with
        feedbacks := sampleStore.feedbacks ++ [sampleFeedback] }
        : FeedbackStore).feedbacks =
      sampleStore.feedbacks ++ [sampleFeedback] :=
  ⟨(feedback_creation sampleStore
      { sampleStore with
        feedbacks := sampleStore.feedbacks ++ [sampleFeedback] }
      sampleFeedback resolvedComplaint).2.2.1 List.Pairwise.nil rfl,
   ((feedback_creation sampleStore
      { sampleStore with
        feedbacks := sampleStore.feedbacks ++ [sampleFeedback] }
      sampleFeedback resolvedComplaint).2.2.2 rfl).1,
   ((feedback_creation sampleStore
      { sampleStore with
        feedbacks := sampleStore.feedbacks ++ [sampleFeedback] }
      sampleFeedback resolvedComplaint).2.2.2 rfl).2⟩
